import Mathlib

/-!
Verification of the student-counsellor platform's risk-scoring and
safety-flagging logic against its specification.

The frontend sources (ChatPage, ProtectedRoute, App, StudentsPage,
AdminPage, RiskDashboardPage) are embedded directly.  The backend
RiskScorer, SafetyMonitor persistence and retention-cleanup job are not
part of the repository snapshot; where a claim depends on them they are
modelled from the specification text, and each such definition says so
in its doc comment.
-/

/-! ## JavaScript string primitives

`String.prototype.toLowerCase` (restricted to ASCII, which covers every
string this code base manipulates) and `String.prototype.includes`. -/

/-- ASCII lowercasing of a single character, as JS `toLowerCase` acts on
the ASCII range. -/
def lowerChar (c : Char) : Char :=
  if 65 ≤ c.toNat ∧ c.toNat ≤ 90 then Char.ofNat (c.toNat + 32) else c

/-- JS `text.toLowerCase()` on ASCII strings. -/
def jsToLowerCase (s : String) : String :=
  ⟨s.data.map lowerChar⟩

/-- JS `s.includes(sub)`: `sub` occurs contiguously inside `s`. -/
def jsIncludes (s sub : String) : Bool :=
  decide (sub.data <:+: s.data)

/-! ## ChatPage.checkSafetyKeywords (src/frontend/src/pages/ChatPage.tsx) -/

/-- The hard-coded keyword list of `checkSafetyKeywords`. -/
def safetyKeywords : List String :=
  ["harm myself", "suicide", "kill myself", "hurt myself", "want to die"]

/-- `checkSafetyKeywords` from ChatPage.tsx:
`safetyKeywords.some(keyword => text.toLowerCase().includes(keyword.toLowerCase()))`. -/
def checkSafetyKeywords (text : String) : Bool :=
  safetyKeywords.any (fun keyword =>
    jsIncludes (jsToLowerCase text) (jsToLowerCase keyword))

/-- C1: the safety-keyword check is case-insensitive substring matching:
it returns true iff the lowercased text contains the lowercased form of
some keyword of the list, and the message "I want to DIE" matches. -/
theorem C1_keyword_matching :
    (∀ text : String, checkSafetyKeywords text = true ↔
      ∃ kw ∈ safetyKeywords,
        (jsToLowerCase kw).data <:+: (jsToLowerCase text).data)
    ∧ checkSafetyKeywords "I want to DIE" = true := by
  constructor
  · intro text
    simp [checkSafetyKeywords, jsIncludes]
  · decide

/-- Witness for C1 at a concrete input. -/
theorem C1_keyword_matching_witness :
    checkSafetyKeywords "I want to DIE" = true ∧
      ∃ kw ∈ safetyKeywords,
        (jsToLowerCase kw).data <:+: (jsToLowerCase "I want to DIE").data := by
  refine ⟨C1_keyword_matching.2, ?_⟩
  exact (C1_keyword_matching.1 "I want to DIE").mp C1_keyword_matching.2

/-! ## RiskScorer (modelled from the spec)

The backend scoring engine is not part of the repository snapshot under
src/; only its frontend callers are.  The definitions below follow the
contract of spec section 4.1. -/

/-- Clip a rational to the interval [0,1]. -/
def clip01 (x : ℚ) : ℚ := max 0 (min 1 x)

/-- Modelled from the spec: the per-student signal snapshot consumed by
the backend RiskScorer (absent from src/) — attendance counts,
normalized academic performance, outstanding-fee amount and chat-flag
count. -/
structure SignalSnapshot where
  presentDays : ℕ
  totalDays : ℕ
  academic : ℚ
  overdueAmount : ℚ
  chatFlags : ℕ
deriving DecidableEq

/-- Modelled from the spec: configured overdue-amount threshold used by
the fee normalization rule. -/
def feeOverdueCap : ℚ := 1000

/-- Modelled from the spec: configured chat-flag count at which the chat
component bottoms out. -/
def chatFlagCap : ℕ := 5

/-- Modelled from the spec: attendance score = present-days / total-days,
clipped to [0,1]. -/
def attendanceScore (s : SignalSnapshot) : ℚ :=
  clip01 ((s.presentDays : ℚ) / (s.totalDays : ℚ))

/-- Modelled from the spec: normalized academic performance, clipped to
[0,1]. -/
def testScore (s : SignalSnapshot) : ℚ :=
  clip01 s.academic

/-- Modelled from the spec: fee score = 1 − min(1, overdue-amount /
threshold), clipped to [0,1]. -/
def feeScore (s : SignalSnapshot) : ℚ :=
  clip01 (1 - min 1 (s.overdueAmount / feeOverdueCap))

/-- Modelled from the spec: chat score = 1 − min(1, flag-count / cap),
clipped to [0,1]; zero flags give the best score 1. -/
def chatScore (s : SignalSnapshot) : ℚ :=
  clip01 (1 - min 1 ((s.chatFlags : ℚ) / (chatFlagCap : ℚ)))

/-- The four component scores in their fixed order
(attendance, test/academic, fee, chat). -/
def componentScores (s : SignalSnapshot) : List ℚ :=
  [attendanceScore s, testScore s, feeScore s, chatScore s]

/-- Modelled from the spec: the fixed weight vector [0.3, 0.3, 0.2, 0.2]. -/
def riskWeights : List ℚ := [3/10, 3/10, 1/5, 1/5]

/-- Weighted sum of component scores. -/
def weightedSum (ws cs : List ℚ) : ℚ :=
  (List.zipWith (fun w c => w * c) ws cs).sum

/-- Modelled from the spec: overall score = weighted sum of the four
component scores under the fixed weights. -/
def overallScore (s : SignalSnapshot) : ℚ :=
  weightedSum riskWeights (componentScores s)

/-- The discrete risk level. -/
inductive RiskLevel where
  | green
  | amber
  | red
deriving DecidableEq

/-- Modelled from the spec: configured green threshold. -/
def greenThreshold : ℚ := 3/4

/-- Modelled from the spec: configured amber threshold. -/
def amberThreshold : ℚ := 1/2

/-- Modelled from the spec: overall ≥ green-threshold → green;
otherwise ≥ amber-threshold → amber; else red. -/
def classifyRisk (overall : ℚ) : RiskLevel :=
  if greenThreshold ≤ overall then .green
  else if amberThreshold ≤ overall then .amber
  else .red

/-- Rank of a risk level under the ordering red < amber < green. -/
def levelRank : RiskLevel → ℕ
  | .red => 0
  | .amber => 1
  | .green => 2

/-- The spec's scenario snapshot: attendance 18/20, academic 0.82,
outstanding fees 0, zero chat flags. -/
def scenarioSnapshot : SignalSnapshot :=
  { presentDays := 18, totalDays := 20, academic := 82/100,
    overdueAmount := 0, chatFlags := 0 }

/-- The scenario snapshot's overall score evaluates to 229/250 = 0.916. -/
lemma overallScore_scenarioSnapshot : overallScore scenarioSnapshot = 229/250 := by
  norm_num [overallScore, weightedSum, componentScores, attendanceScore,
    testScore, feeScore, chatScore, clip01, scenarioSnapshot, riskWeights,
    feeOverdueCap, chatFlagCap]

/-- C2 counterexample: on the scenario snapshot the computed overall
score is 0.916, which is not approximately 0.846 (it is off by 0.07,
more than any reasonable tolerance such as 0.04). -/
theorem C2_scenario_counterexample :
    overallScore scenarioSnapshot = 229/250 ∧
      ¬ |overallScore scenarioSnapshot - 423/500| ≤ 1/25 := by
  refine ⟨overallScore_scenarioSnapshot, ?_⟩
  rw [overallScore_scenarioSnapshot]
  norm_num [abs_le]

/-- C2 (amended): on the scenario snapshot the overall score is 0.916
(= 229/250) and the risk level is green. -/
theorem C2_scenario :
    overallScore scenarioSnapshot = 229/250 ∧
      classifyRisk (overallScore scenarioSnapshot) = .green := by
  refine ⟨overallScore_scenarioSnapshot, ?_⟩
  rw [overallScore_scenarioSnapshot]
  norm_num [classifyRisk, greenThreshold]

/-- `clip01` really lands in [0,1]. -/
lemma clip01_mem (x : ℚ) : 0 ≤ clip01 x ∧ clip01 x ≤ 1 := by
  refine ⟨le_max_left 0 _, max_le (by norm_num) (min_le_left 1 x)⟩

/-- C3: the overall risk score is the weighted sum of the four component
scores (each clipped to [0,1]) under the fixed weight vector, the
weights sum to 1, and every component score lies in [0,1]. -/
theorem C3_weighted_sum :
    (∀ s : SignalSnapshot,
      overallScore s =
        3/10 * attendanceScore s + 3/10 * testScore s +
          1/5 * feeScore s + 1/5 * chatScore s)
    ∧ riskWeights.sum = 1
    ∧ (∀ s : SignalSnapshot, ∀ c ∈ componentScores s, 0 ≤ c ∧ c ≤ 1) := by
  refine ⟨?_, ?_, ?_⟩
  · intro s
    simp [overallScore, weightedSum, componentScores, riskWeights]
    ring
  · norm_num [riskWeights]
  · intro s c hc
    simp only [componentScores, List.mem_cons, List.not_mem_nil, or_false] at hc
    rcases hc with h | h | h | h <;> subst h
    · exact clip01_mem _
    · exact clip01_mem _
    · exact clip01_mem _
    · exact clip01_mem _

/-- Witness for C3 at the scenario snapshot. -/
theorem C3_weighted_sum_witness :
    overallScore scenarioSnapshot =
        3/10 * attendanceScore scenarioSnapshot +
          3/10 * testScore scenarioSnapshot +
          1/5 * feeScore scenarioSnapshot + 1/5 * chatScore scenarioSnapshot
      ∧ riskWeights.sum = 1
      ∧ (0 ≤ attendanceScore scenarioSnapshot ∧
          attendanceScore scenarioSnapshot ≤ 1) :=
  ⟨C3_weighted_sum.1 scenarioSnapshot, C3_weighted_sum.2.1,
    C3_weighted_sum.2.2 scenarioSnapshot (attendanceScore scenarioSnapshot)
      (by simp [componentScores])⟩

/-- C4: classification is the threshold function of the overall score
(≥ green threshold → green, otherwise ≥ amber threshold → amber, else
red) and is monotone in the score under red < amber < green. -/
theorem C4_threshold_monotone :
    (∀ s : ℚ,
      (greenThreshold ≤ s → classifyRisk s = .green) ∧
        (amberThreshold ≤ s → s < greenThreshold → classifyRisk s = .amber) ∧
        (s < amberThreshold → classifyRisk s = .red))
    ∧ (∀ s₁ s₂ : ℚ, s₁ ≤ s₂ →
        levelRank (classifyRisk s₁) ≤ levelRank (classifyRisk s₂)) := by
  constructor
  · intro s
    unfold classifyRisk
    refine ⟨?_, ?_, ?_⟩
    · intro h
      rw [if_pos h]
    · intro h₁ h₂
      rw [if_neg (not_le.mpr h₂), if_pos h₁]
    · intro h
      have hg : ¬ greenThreshold ≤ s := by
        rw [greenThreshold]; rw [amberThreshold] at h; intro hc; linarith
      rw [if_neg hg, if_neg (not_le.mpr h)]
  · intro s₁ s₂ hle
    unfold classifyRisk
    split_ifs with h₁ h₂ h₃ h₄ h₅ <;> simp [levelRank] <;> linarith

/-- Witness for C4 at concrete scores. -/
theorem C4_threshold_monotone_witness :
    classifyRisk (8/10) = .green ∧ classifyRisk (6/10) = .amber ∧
      classifyRisk (1/10) = .red ∧
      levelRank (classifyRisk (6/10)) ≤ levelRank (classifyRisk (8/10)) :=
  ⟨(C4_threshold_monotone.1 (8/10)).1 (by norm_num [greenThreshold]),
    (C4_threshold_monotone.1 (6/10)).2.1 (by norm_num [amberThreshold])
      (by norm_num [greenThreshold]),
    (C4_threshold_monotone.1 (1/10)).2.2 (by norm_num [amberThreshold]),
    C4_threshold_monotone.2 (6/10) (8/10) (by norm_num)⟩

/-! ## Batch "recompute all" (modelled from the spec)

The frontend `calculateAllMutation` (RiskDashboardPage.tsx) only calls
`riskApi.calculateAllRiskScores` and reports `data.calculated_count`;
the batch driver itself is backend code absent from src/. -/

/-- Modelled from the spec: an active student as seen by the batch
driver — an id and an optional signal snapshot (`none` when the
student's attendance records are missing). -/
structure StudentRec where
  sid : ℕ
  signals : Option SignalSnapshot

/-- Modelled from the spec: the batch report — the persisted scores of
the students that succeeded and, per failed student, a reason. -/
structure BatchReport where
  succeeded : List (ℕ × ℚ)
  failed : List (ℕ × String)
deriving DecidableEq

/-- Modelled from the spec: "recompute all" processes every active
student once; a student with signal data gets a persisted score, a
student with missing data is collected as a failure with a reason, and
one failure does not stop the rest. -/
def recomputeAll (students : List StudentRec) : BatchReport :=
  { succeeded := students.filterMap (fun st =>
      st.signals.map (fun sig => (st.sid, overallScore sig))),
    failed := students.filterMap (fun st =>
      match st.signals with
      | some _ => none
      | none => some (st.sid, "missing attendance data")) }

/-- The success count reported by the batch (the frontend's
`calculated_count`). -/
def calculatedCount (r : BatchReport) : ℕ := r.succeeded.length

/-- The failure count reported by the batch. -/
def failedCount (r : BatchReport) : ℕ := r.failed.length

/-- The spec's 3-student batch scenario: students 1 and 2 have signal
data, student 3 has no attendance records. -/
def demoStudents : List StudentRec :=
  [⟨1, some scenarioSnapshot⟩,
   ⟨2, some ⟨10, 20, 4/10, 2000, 10⟩⟩,
   ⟨3, none⟩]

/-- Every student lands in exactly one of the two report lists. -/
lemma recomputeAll_length (students : List StudentRec) :
    calculatedCount (recomputeAll students) +
        failedCount (recomputeAll students) = students.length := by
  induction students with
  | nil => rfl
  | cons st rest ih =>
    rcases h : st.signals with _ | sig <;>
      simp_all [recomputeAll, calculatedCount, failedCount,
        List.filterMap_cons, h] <;> omega

/-- C5: the batch processes every active student exactly once (success
and failure counts add up to the student count, each student with data
is persisted in the success list, each student without data is reported
failed with its reason — so one failure aborts nothing), and on the
3-student scenario the report shows 2 successes and the 1 failure with
reason "missing attendance data" while both computed scores are
persisted. -/
theorem C5_batch_recompute :
    (∀ students : List StudentRec,
      calculatedCount (recomputeAll students) +
          failedCount (recomputeAll students) = students.length)
    ∧ (∀ students : List StudentRec, ∀ st ∈ students, ∀ sig,
        st.signals = some sig →
          (st.sid, overallScore sig) ∈ (recomputeAll students).succeeded)
    ∧ (∀ students : List StudentRec, ∀ st ∈ students,
        st.signals = none →
          (st.sid, "missing attendance data") ∈ (recomputeAll students).failed)
    ∧ calculatedCount (recomputeAll demoStudents) = 2
    ∧ (recomputeAll demoStudents).failed = [(3, "missing attendance data")]
    ∧ (1, overallScore scenarioSnapshot) ∈ (recomputeAll demoStudents).succeeded
    ∧ (2, overallScore ⟨10, 20, 4/10, 2000, 10⟩) ∈
        (recomputeAll demoStudents).succeeded := by
  refine ⟨recomputeAll_length, ?_, ?_, ?_, ?_, ?_, ?_⟩
  · intro students st hmem sig hsig
    simp only [recomputeAll, List.mem_filterMap]
    exact ⟨st, hmem, by rw [hsig]; rfl⟩
  · intro students st hmem hsig
    simp only [recomputeAll, List.mem_filterMap]
    exact ⟨st, hmem, by rw [hsig]⟩
  · rfl
  · rfl
  · simp [recomputeAll, demoStudents, List.filterMap_cons]
  · simp [recomputeAll, demoStudents, List.filterMap_cons]

/-- Witness for C5 on the 3-student scenario. -/
theorem C5_batch_recompute_witness :
    calculatedCount (recomputeAll demoStudents) +
        failedCount (recomputeAll demoStudents) = demoStudents.length
      ∧ (1, overallScore scenarioSnapshot) ∈
          (recomputeAll demoStudents).succeeded
      ∧ (3, "missing attendance data") ∈ (recomputeAll demoStudents).failed :=
  ⟨C5_batch_recompute.1 demoStudents,
    C5_batch_recompute.2.1 demoStudents ⟨1, some scenarioSnapshot⟩
      (by simp [demoStudents]) scenarioSnapshot rfl,
    C5_batch_recompute.2.2.1 demoStudents ⟨3, none⟩
      (by simp [demoStudents]) rfl⟩

/-! ## Chat messages and retention cleanup

AdminPage.tsx (src/unnamed/part_002) offers a "Cleanup Expired
Messages" action whose description reads "Remove chat messages older
than 15 days (except flagged ones)".  Its `cleanupMutation`, however,
is `mutationFn: () => chatApi.getMessages()` with the comment "Mock
cleanup function": it performs a read and deletes nothing. -/

/-- A chat message as far as retention is concerned: an id, its age in
days, and the flagged-for-SOS marker. -/
structure ChatMessage where
  mid : ℕ
  ageDays : ℕ
  flaggedForSOS : Bool
deriving DecidableEq

/-- The retention window from the UI text: 15 days. -/
def retentionWindowDays : ℕ := 15

/-- `chatApi.getMessages` is a query: it returns the stored messages and
leaves the store untouched.  The pair is (store afterwards, result). -/
def chatGetMessages (store : List ChatMessage) :
    List ChatMessage × List ChatMessage :=
  (store, store)

/-- `cleanupMutation.mutationFn` from AdminPage.tsx: it only calls
`chatApi.getMessages()` ("Mock cleanup function"), so the store after
the cleanup action is unchanged. -/
def cleanupMutationFn (store : List ChatMessage) : List ChatMessage :=
  (chatGetMessages store).1

/-- Modelled from the spec: the retention-cleanup job the claim
describes (absent from src/) — it keeps exactly the messages that are
flagged for SOS or not older than the retention window. -/
def retentionCleanup (store : List ChatMessage) : List ChatMessage :=
  store.filter (fun m => m.flaggedForSOS || decide (m.ageDays ≤ retentionWindowDays))

/-- C6: the cleanup action of the code deletes nothing.  On a store
holding one non-flagged 20-day-old message the code's cleanup leaves the
message in place, while the specified retention job would delete it (and
would retain a flagged message of the same age). -/
theorem C6_cleanup_is_mock :
    cleanupMutationFn [⟨1, 20, false⟩] = [⟨1, 20, false⟩]
      ∧ retentionCleanup [⟨1, 20, false⟩] = []
      ∧ retentionCleanup [⟨2, 20, true⟩] = [⟨2, 20, true⟩]
      ∧ retentionWindowDays < 20 := by
  refine ⟨rfl, ?_, ?_, by decide⟩ <;> decide

/-! ## SafetyMonitor (matcher from src, persistence modelled from the spec) -/

/-- Status of an SOS incident. -/
inductive SOSStatus where
  | open
  | acknowledged
  | resolved
deriving DecidableEq

/-- Modelled from the spec: an SOSIncident record — triggering student,
matched keywords, status. -/
structure SOSIncident where
  studentId : ℕ
  triggerKeywords : List String
  status : SOSStatus
deriving DecidableEq

/-- The keywords of the list that match a given text, matching as
`checkSafetyKeywords` does. -/
def matchedKeywords (text : String) : List String :=
  safetyKeywords.filter (fun keyword =>
    jsIncludes (jsToLowerCase text) (jsToLowerCase keyword))

/-- Modelled from the spec: the SafetyMonitor processing an inbound
message (incident persistence is backend code absent from src/; the
matcher is `checkSafetyKeywords` from ChatPage.tsx).  It returns the
message's flagged-for-SOS marker and the incident list after the
message: on a match a new open incident is created, on a non-match
nothing is mutated. -/
def processMessage (incidents : List SOSIncident) (sender : ℕ)
    (text : String) : Bool × List SOSIncident :=
  if checkSafetyKeywords text then
    (true, ⟨sender, matchedKeywords text, .open⟩ :: incidents)
  else
    (false, incidents)

/-- C7: empty text matches no keyword, and any non-matching message is
reported as a non-match: its flagged-for-SOS marker is false and the
incident list is left exactly as it was. -/
theorem C7_non_match_no_incident :
    checkSafetyKeywords "" = false
      ∧ (∀ (incidents : List SOSIncident) (sender : ℕ) (text : String),
          checkSafetyKeywords text = false →
            processMessage incidents sender text = (false, incidents)) := by
  refine ⟨by decide, ?_⟩
  intro incidents sender text h
  simp [processMessage, h]

/-- Witness for C7: processing the empty message mutates nothing. -/
theorem C7_non_match_no_incident_witness :
    checkSafetyKeywords "" = false
      ∧ processMessage [] 7 "" = (false, []) :=
  ⟨C7_non_match_no_incident.1,
    C7_non_match_no_incident.2 [] 7 "" C7_non_match_no_incident.1⟩

/-! ## ProtectedRoute (src/frontend/src/components/ProtectedRoute.tsx)
and the App routes (src/frontend/src/App.tsx) -/

/-- The user roles of the auth store. -/
inductive Role where
  | student
  | teacher
  | mentor
  | counselor
  | admin
deriving DecidableEq

/-- The slice of the auth-store user that ProtectedRoute consults. -/
structure AuthUser where
  uid : ℕ
  role : Role
deriving DecidableEq

/-- What a guarded route renders. -/
inductive RenderResult where
  | redirectLogin
  | accessDenied
  | content
deriving DecidableEq

/-- `ProtectedRoute` from ProtectedRoute.tsx: redirect to /login when
not authenticated or no user, an access-denied view when the user's role
is not in `allowedRoles`, otherwise the children. -/
def ProtectedRoute (isAuthenticated : Bool) (user : Option AuthUser)
    (allowedRoles : List Role) : RenderResult :=
  match isAuthenticated, user with
  | false, _ => .redirectLogin
  | true, none => .redirectLogin
  | true, some u =>
      if allowedRoles.contains u.role then .content else .accessDenied

/-- The /chat route of App.tsx: ChatPage wrapped in
`ProtectedRoute allowedRoles={['student']}`. -/
def chatRoute (isAuthenticated : Bool) (user : Option AuthUser) : RenderResult :=
  ProtectedRoute isAuthenticated user [.student]

/-- C8: a guarded route renders its content iff an authenticated user's
role is in the allowed list; an unauthenticated user is redirected to
login; an authenticated user with a role outside the list gets the
access-denied view; the chat page renders only for role student. -/
theorem C8_protected_route :
    (∀ (auth : Bool) (user : Option AuthUser) (roles : List Role),
      ProtectedRoute auth user roles = .content ↔
        auth = true ∧ ∃ u, user = some u ∧ u.role ∈ roles)
    ∧ (∀ (user : Option AuthUser) (roles : List Role),
        ProtectedRoute false user roles = .redirectLogin)
    ∧ (∀ (u : AuthUser) (roles : List Role), u.role ∉ roles →
        ProtectedRoute true (some u) roles = .accessDenied)
    ∧ (∀ (auth : Bool) (user : Option AuthUser),
        chatRoute auth user = .content ↔
          auth = true ∧ ∃ u, user = some u ∧ u.role = .student) := by
  have hmain : ∀ (auth : Bool) (user : Option AuthUser) (roles : List Role),
      ProtectedRoute auth user roles = .content ↔
        auth = true ∧ ∃ u, user = some u ∧ u.role ∈ roles := by
    intro auth user roles
    rcases auth with _ | _ <;> rcases user with _ | u <;>
      simp [ProtectedRoute]
  refine ⟨hmain, ?_, ?_, ?_⟩
  · intro user roles
    rcases user with _ | u <;> rfl
  · intro u roles h
    simp [ProtectedRoute, h]
  · intro auth user
    rw [chatRoute, hmain]
    simp

/-- Witness for C8 at concrete users. -/
theorem C8_protected_route_witness :
    ProtectedRoute true (some ⟨1, .student⟩) [.student] = .content
      ∧ ProtectedRoute false none [.student] = .redirectLogin
      ∧ ProtectedRoute true (some ⟨2, .teacher⟩) [.student] = .accessDenied
      ∧ chatRoute true (some ⟨1, .student⟩) = .content :=
  ⟨(C8_protected_route.1 true (some ⟨1, .student⟩) [.student]).mpr
      ⟨rfl, ⟨1, .student⟩, rfl, by simp⟩,
    C8_protected_route.2.1 none [.student],
    C8_protected_route.2.2.1 ⟨2, .teacher⟩ [.student] (by simp),
    (C8_protected_route.2.2.2 true (some ⟨1, .student⟩)).mpr
      ⟨rfl, ⟨1, .student⟩, rfl, rfl⟩⟩

/-! ## ChatPage submit path (src/frontend/src/pages/ChatPage.tsx) -/

/-- The whitespace characters JS `trim` removes (the ASCII ones, which
cover keyboard input). -/
def isJsWhitespace (c : Char) : Bool :=
  c = ' ' || c = '\t' || c = '\n' || c = '\x0d' || c = '\x0b' || c = '\x0c'

/-- JS `message.trim()`: strip leading and trailing whitespace. -/
def jsTrim (s : String) : String :=
  ⟨((s.data.dropWhile isJsWhitespace).reverse.dropWhile isJsWhitespace).reverse⟩

/-- `onSubmit` from ChatPage.tsx acting on the list of messages handed
to `sendMutation.mutate`: `if (!data.message.trim()) return` — a message
whose trimmed text is empty is dropped, any other message is sent. -/
def onSubmit (message : String) (sent : List String) : List String :=
  if jsTrim message = "" then sent else message :: sent

/-- The submit button's `disabled` expression from ChatPage.tsx:
`!messageValue.trim() || sendMutation.isPending`. -/
def submitDisabled (messageValue : String) (isPending : Bool) : Bool :=
  jsTrim messageValue = "" || isPending

/-- Trimming a string of nothing but whitespace yields the empty string. -/
lemma jsTrim_of_whitespace (s : String)
    (h : ∀ c ∈ s.data, isJsWhitespace c = true) : jsTrim s = "" := by
  have h1 : s.data.dropWhile isJsWhitespace = [] :=
    List.dropWhile_eq_nil_iff.mpr h
  simp [jsTrim, h1]

/-- C9: a whitespace-only message is never sent — `onSubmit` returns
without invoking the send mutation, and the submit button is disabled
for such input whether or not a send is pending. -/
theorem C9_whitespace_not_sent :
    ∀ (message : String) (sent : List String),
      (∀ c ∈ message.data, isJsWhitespace c = true) →
        onSubmit message sent = sent
          ∧ submitDisabled message false = true
          ∧ submitDisabled message true = true := by
  intro message sent h
  have ht := jsTrim_of_whitespace message h
  refine ⟨?_, ?_, ?_⟩ <;> simp [onSubmit, submitDisabled, ht]

/-- Witness for C9 on the three-space message. -/
theorem C9_whitespace_not_sent_witness :
    onSubmit "   " ["hello"] = ["hello"]
      ∧ submitDisabled "   " false = true :=
  ⟨(C9_whitespace_not_sent "   " ["hello"] (by decide)).1,
    (C9_whitespace_not_sent "   " ["hello"] (by decide)).2.1⟩

/-! ## StudentsPage filter (src/unnamed/part_003, `filteredStudents`) -/

/-- The slice of a student record that the students-list filter reads:
the user's full name, the student id, and the current risk level (absent
when no risk score has been computed). -/
structure StudentCard where
  fullName : String
  studentId : String
  riskLevel : Option String
deriving DecidableEq

/-- `matchesSearch` from StudentsPage.tsx:
`full_name.toLowerCase().includes(searchTerm.toLowerCase()) ||
student_id.toLowerCase().includes(searchTerm.toLowerCase())`. -/
def matchesSearch (st : StudentCard) (searchTerm : String) : Bool :=
  jsIncludes (jsToLowerCase st.fullName) (jsToLowerCase searchTerm) ||
    jsIncludes (jsToLowerCase st.studentId) (jsToLowerCase searchTerm)

/-- `matchesRisk` from StudentsPage.tsx:
`!selectedRisk || current_risk_score?.risk_level === selectedRisk`
(the empty string is the falsy "All Risk Levels" choice). -/
def matchesRisk (st : StudentCard) (selectedRisk : String) : Bool :=
  selectedRisk = "" || st.riskLevel = some selectedRisk

/-- `filteredStudents` from StudentsPage.tsx. -/
def filteredStudents (students : List StudentCard)
    (searchTerm selectedRisk : String) : List StudentCard :=
  students.filter (fun st =>
    matchesSearch st searchTerm && matchesRisk st selectedRisk)

/-- C10: a student appears in the filtered list iff it is in the list
and the lowercased search term occurs in its lowercased full name or
lowercased student id, and either no risk level is selected or the
student's current risk level equals the selected one. -/
theorem C10_filter_sound :
    ∀ (students : List StudentCard) (searchTerm selectedRisk : String)
      (st : StudentCard),
      st ∈ filteredStudents students searchTerm selectedRisk ↔
        st ∈ students
          ∧ ((jsToLowerCase searchTerm).data <:+:
                (jsToLowerCase st.fullName).data ∨
              (jsToLowerCase searchTerm).data <:+:
                (jsToLowerCase st.studentId).data)
          ∧ (selectedRisk = "" ∨ st.riskLevel = some selectedRisk) := by
  intro students searchTerm selectedRisk st
  simp [filteredStudents, List.mem_filter, matchesSearch, matchesRisk,
    jsIncludes, and_assoc]

/-- Witness for C10 on a concrete roster: the search "ali" with risk
filter "red" keeps exactly Alice. -/
theorem C10_filter_sound_witness :
    (⟨"Alice Ux", "S1", some "red"⟩ : StudentCard) ∈
        filteredStudents
          [⟨"Alice Ux", "S1", some "red"⟩, ⟨"Bob Vy", "S2", some "green"⟩]
          "ALI" "red"
      ∧ (⟨"Bob Vy", "S2", some "green"⟩ : StudentCard) ∉
          filteredStudents
            [⟨"Alice Ux", "S1", some "red"⟩, ⟨"Bob Vy", "S2", some "green"⟩]
            "ALI" "red" := by
  constructor
  · exact (C10_filter_sound _ "ALI" "red" _).mpr
      ⟨by simp, by left; decide, by right; rfl⟩
  · intro hmem
    have h := (C10_filter_sound
      [⟨"Alice Ux", "S1", some "red"⟩, ⟨"Bob Vy", "S2", some "green"⟩]
      "ALI" "red" ⟨"Bob Vy", "S2", some "green"⟩).mp hmem
    rcases h with ⟨-, h2, -⟩
    rcases h2 with h2 | h2 <;> revert h2 <;> decide
